import Mathlib

/-!
Verification of the Feedbucket MCP server's core data pipeline
(filter / paginate / summarize / optimize) against its specification.

The definitions below are a shallow embedding of the TypeScript source:

* `FeedbucketApi.filterFeedback`, `summarizeFeedback`, `optimizeFeedbackForAI`,
  `getProjectFeedback`, `getFeedbackById`, `makeRequest` from the API client
  module, and
* the `feedback_list` tool handler from the MCP server module.

JavaScript-specific behaviour is modelled explicitly: optional values become
`Option`, truthiness tests on strings and numbers become `jsStrTruthy` /
`jsNumTruthy` (the empty string and `0` are falsy), `Array.prototype.slice`
becomes `jsSlice`, and `String.prototype.includes` becomes `strIncludes`.
-/

namespace Feedbucket

/-- JavaScript truthiness of an optional string: `undefined` and `""` are falsy. -/
def jsStrTruthy : Option String → Bool
  | none => false
  | some s => !(s == "")

/-- JavaScript truthiness of an optional number: `undefined` and `0` are falsy. -/
def jsNumTruthy : Option Nat → Bool
  | none => false
  | some n => !(n == 0)

/-- Model of `String.prototype.includes`: substring (contiguous) containment. -/
def strIncludes (s sub : String) : Bool :=
  decide (sub.data <:+: s.data)

/-- Lexicographic comparison of character lists, mirroring how JavaScript
compares strings with `<` and `>` (code-unit by code-unit). -/
def lexLt : List Char → List Char → Bool
  | _, [] => false
  | [], _ :: _ => true
  | a :: as, b :: bs => if a < b then true else if b < a then false else lexLt as bs

/-- JavaScript `a < b` on strings. -/
def strLt (a b : String) : Bool :=
  lexLt a.data b.data

/-- JavaScript `a <= b` on strings, i.e. `!(b < a)` for a total order. -/
def strLe (a b : String) : Bool :=
  !(lexLt b.data a.data)

/-- Model of `String.prototype.toLowerCase` (character-wise lowering). -/
def strToLower (s : String) : String :=
  ⟨s.data.map Char.toLower⟩

/-- Model of `Array.prototype.slice(start, stop?)` for non-negative indices:
elements from `start` (inclusive) to `stop` (exclusive, end of array when
absent), both clamped to the array bounds. -/
def jsSlice (l : List α) (start : Nat) (stop : Option Nat) : List α :=
  match stop with
  | some e => (l.take e).drop start
  | none => l.drop start

/-! ### Data model (from `types.ts`) -/

/-- `Reporter` from `types.ts`. -/
structure Reporter where
  id : Nat
  name : String
  email : String
  token : Option String
  notifications : Bool
  created_at : String
  updated_at : String
deriving DecidableEq, Repr

/-- The `offset` sub-object of `SessionData.selector`. -/
structure SelectorOffset where
  x : Int
  y : Int
deriving DecidableEq, Repr

/-- The `selector` sub-object of `SessionData`. -/
structure Selector where
  path : String
  offset : SelectorOffset
  pathWithClass : String
  scrollableSelector : Option String
deriving DecidableEq, Repr

/-- The `console` log-count breakdown inside `devDataOverview`. -/
structure ConsoleCounts where
  log : Nat
  info : Nat
  warn : Nat
  error : Nat
deriving DecidableEq, Repr

/-- The `devDataOverview` sub-object of `SessionData`. -/
structure DevDataOverview where
  console : ConsoleCounts
deriving DecidableEq, Repr

/-- `SessionData` from `types.ts`. -/
structure SessionData where
  page : String
  device : String
  system : String
  browser : String
  selector : Selector
  userAgent : String
  screenWidth : Nat
  screenHeight : Nat
  viewportWidth : Nat
  viewportHeight : Nat
  widgetVersion : String
  devDataOverview : DevDataOverview
  devicePixelRatio : Int
deriving DecidableEq, Repr

/-- `Comment` from `types.ts`. -/
structure Comment where
  id : Nat
  body : String
  attachments : List String
  created_at : String
  name : String
deriving DecidableEq, Repr

/-- The `type` enum of a feedback record. -/
inductive FeedbackType where
  | screenshot
  | video
  | text
deriving DecidableEq, Repr

/-- `Feedback` from `types.ts`. -/
structure Feedback where
  id : Nat
  type : FeedbackType
  reporter : Reporter
  resource : Option String
  title : String
  text : Option String
  tags : List String
  attachments : List String
  resolved_at : Option String
  session_data : SessionData
  created_at : String
  comments : List Comment
deriving DecidableEq, Repr

/-- `Project` from `types.ts`. -/
structure Project where
  id : Nat
  name : String
  url : String
  translations : List (String × String)
  feedback : List Feedback
deriving DecidableEq, Repr

/-- `ProjectResponse` from `types.ts`. -/
structure ProjectResponse where
  message : String
  project : Project
deriving DecidableEq, Repr

/-- `FeedbackFilter` from `types.ts`: all criteria optional. -/
structure FeedbackFilter where
  resolved : Option Bool
  page : Option String
  reporter : Option String
  type : Option FeedbackType
  created_after : Option String
  created_before : Option String
deriving DecidableEq, Repr

/-- The filter with no criteria set. -/
def emptyFilter : FeedbackFilter :=
  ⟨none, none, none, none, none, none⟩

/-- `FeedbackSummary` from `types.ts`. -/
structure FeedbackSummary where
  id : Nat
  type : FeedbackType
  title : String
  text : Option String
  reporter_name : String
  page : String
  created_at : String
  resolved_at : Option String
  comment_count : Nat
  has_attachments : Bool
deriving DecidableEq, Repr

/-- `ListOptions` from `types.ts`, extended with the optional `filter`
member that `getProjectFeedback` accepts. -/
structure ListOptions where
  limit : Option Nat
  offset : Option Nat
  summary : Option Bool
  actioned : Option Bool
  filter : Option FeedbackFilter
deriving DecidableEq, Repr

/-- `FeedbucketApiError` (`api.ts`): message, HTTP status, optional raw body. -/
structure FeedbucketApiError where
  message : String
  status : Nat
  response : Option String
deriving DecidableEq, Repr

/-! ### Filter engine (`api.ts`, `filterFeedback`) -/

/-- The record predicate of `filterFeedback`, transcribed clause by clause from
the early-return chain in `api.ts`: the record survives iff no guard fires.
String-valued criteria are guarded by JavaScript truthiness (`filter.page &&`,
`filter.reporter &&`, `filter.created_after &&`, `filter.created_before &&`),
`resolved` by an explicit `!== undefined` check, and `type` by truthiness of a
(nonempty) enum string. -/
def feedbackPasses (f : FeedbackFilter) (item : Feedback) : Bool :=
  !(match f.resolved with
    | none => false
    | some r => r != item.resolved_at.isSome) &&
  !(jsStrTruthy f.page && !(strIncludes item.session_data.page (f.page.getD ""))) &&
  !(jsStrTruthy f.reporter &&
    !(strIncludes (strToLower item.reporter.name) (strToLower (f.reporter.getD "")))) &&
  !(match f.type with
    | none => false
    | some t => t != item.type) &&
  !(jsStrTruthy f.created_after && strLt item.created_at (f.created_after.getD "")) &&
  !(jsStrTruthy f.created_before && strLt (f.created_before.getD "") item.created_at)

/-- `FeedbucketApi.filterFeedback`. -/
def filterFeedback (feedback : List Feedback) (f : FeedbackFilter) : List Feedback :=
  feedback.filter (feedbackPasses f)

/-! Specification-shaped per-criterion predicates: each criterion evaluated as
an independent predicate, with an empty-string criterion treated as absent
(matching the truthiness guards of the source). -/

/-- Independent `resolved` criterion. -/
def passResolved (f : FeedbackFilter) (item : Feedback) : Bool :=
  match f.resolved with
  | none => true
  | some r => item.resolved_at.isSome == r

/-- Independent `page` criterion (substring match; empty string is vacuous). -/
def passPage (f : FeedbackFilter) (item : Feedback) : Bool :=
  match f.page with
  | none => true
  | some p => if p == "" then true else strIncludes item.session_data.page p

/-- Independent `reporter` criterion (case-insensitive substring; empty string
is vacuous). -/
def passReporter (f : FeedbackFilter) (item : Feedback) : Bool :=
  match f.reporter with
  | none => true
  | some rep => if rep == "" then true else strIncludes (strToLower item.reporter.name) (strToLower rep)

/-- Independent `type` criterion (exact enum equality). -/
def passType (f : FeedbackFilter) (item : Feedback) : Bool :=
  match f.type with
  | none => true
  | some t => item.type == t

/-- Independent `created_after` criterion: inclusive lower bound under
lexicographic string comparison (empty string is vacuous). -/
def passCreatedAfter (f : FeedbackFilter) (item : Feedback) : Bool :=
  match f.created_after with
  | none => true
  | some a => if a == "" then true else strLe a item.created_at

/-- Independent `created_before` criterion: inclusive upper bound under
lexicographic string comparison (empty string is vacuous). -/
def passCreatedBefore (f : FeedbackFilter) (item : Feedback) : Bool :=
  match f.created_before with
  | none => true
  | some b => if b == "" then true else strLe item.created_at b

/-- Conjunction of the six independent criteria. -/
def passAll (f : FeedbackFilter) (item : Feedback) : Bool :=
  passResolved f item && passPage f item && passReporter f item &&
    passType f item && passCreatedAfter f item && passCreatedBefore f item

/-- Modelled from the spec: the record predicate exactly as the specification
words it (sections 4.2 and 8 of the spec and claim C1) — every criterion that
is syntactically present (`some`) is evaluated as an independent predicate,
including a present empty-string criterion; `created_after` is an inclusive
lower bound and `created_before` an upper bound under string comparison. Used
only to compare the specified filter with the implemented one. -/
def specFilterPred (f : FeedbackFilter) (item : Feedback) : Bool :=
  (match f.resolved with
   | none => true
   | some r => item.resolved_at.isSome == r) &&
  (match f.page with
   | none => true
   | some p => strIncludes item.session_data.page p) &&
  (match f.reporter with
   | none => true
   | some rep => strIncludes (strToLower item.reporter.name) (strToLower rep)) &&
  (match f.type with
   | none => true
   | some t => item.type == t) &&
  (match f.created_after with
   | none => true
   | some a => strLe a item.created_at) &&
  (match f.created_before with
   | none => true
   | some b => strLe item.created_at b)

/-! ### Summarizer (`api.ts`, `summarizeFeedback` / `optimizeFeedbackForAI`) -/

/-- The text projection of `summarizeFeedback`:
`item.text ? (item.text.length > 200 ? item.text.slice(0, 200) + "..." : item.text) : null`.
Note the JavaScript truthiness test: an empty string maps to `null`. -/
def summarizeText : Option String → Option String
  | none => none
  | some s =>
    if s == "" then none
    else if decide (s.length > 200) then some (s.take 200 ++ "...")
    else some s

/-- The per-record projection inside `summarizeFeedback`. -/
def summarizeOne (item : Feedback) : FeedbackSummary :=
  { id := item.id
    type := item.type
    title := item.title
    text := summarizeText item.text
    reporter_name := item.reporter.name
    page := item.session_data.page
    created_at := item.created_at
    resolved_at := item.resolved_at
    comment_count := item.comments.length
    has_attachments := decide (item.attachments.length > 0) }

/-- `FeedbucketApi.summarizeFeedback`. -/
def summarizeFeedback (feedback : List Feedback) : List FeedbackSummary :=
  feedback.map summarizeOne

/-- The per-record projection inside `optimizeFeedbackForAI`: the record is
spread unchanged and `session_data` is rebuilt from the enumerated allow-list
of fields. -/
def optimizeOne (item : Feedback) : Feedback :=
  { item with
    session_data :=
      { page := item.session_data.page
        device := item.session_data.device
        system := item.session_data.system
        browser := item.session_data.browser
        selector :=
          { path := item.session_data.selector.path
            pathWithClass := item.session_data.selector.pathWithClass
            offset := item.session_data.selector.offset
            scrollableSelector := item.session_data.selector.scrollableSelector }
        userAgent := item.session_data.userAgent
        screenWidth := item.session_data.screenWidth
        screenHeight := item.session_data.screenHeight
        viewportWidth := item.session_data.viewportWidth
        viewportHeight := item.session_data.viewportHeight
        widgetVersion := item.session_data.widgetVersion
        devDataOverview := item.session_data.devDataOverview
        devicePixelRatio := item.session_data.devicePixelRatio } }

/-- `FeedbucketApi.optimizeFeedbackForAI`. -/
def optimizeFeedbackForAI (feedback : List Feedback) : List Feedback :=
  feedback.map optimizeOne

/-! ### Query orchestrator (`api.ts`, `getProjectFeedback`) -/

/-- The filtering stage of `getProjectFeedback`: applied only when a filter
object was supplied. -/
def filterStep (feedback : List Feedback) (filter : Option FeedbackFilter) : List Feedback :=
  match filter with
  | some f => filterFeedback feedback f
  | none => feedback

/-- The pagination stage of `getProjectFeedback`:
`if (options.offset || options.limit) { const start = options.offset || 0;
const end = options.limit ? start + options.limit : undefined;
slice(start, end) }`. -/
def paginateStep (l : List α) (offset limit : Option Nat) : List α :=
  if jsNumTruthy offset || jsNumTruthy limit then
    let start := offset.getD 0
    let stop : Option Nat :=
      match limit with
      | some lim => if lim == 0 then none else some (start + lim)
      | none => none
    jsSlice l start stop
  else l

/-- The `data_optimization` block of the `getProjectFeedback` result. -/
structure DataOptimization where
  original_count : Nat
  filtered_count : Nat
  returned_count : Nat
  truncated_session_data : Bool
  summarized : Bool
deriving DecidableEq, Repr

/-- The union type `readonly FeedbackSummary[] | readonly Feedback[]`. -/
inductive ProcessedFeedback where
  | summaries (items : List FeedbackSummary)
  | full (items : List Feedback)
deriving DecidableEq, Repr

/-- Length of either branch of the union (JavaScript `result.feedback.length`). -/
def processedLength : ProcessedFeedback → Nat
  | .summaries items => items.length
  | .full items => items.length

/-- The record returned by `getProjectFeedback`. -/
structure FeedbackListResult where
  project : Project
  feedback : ProcessedFeedback
  total_count : Nat
  data_optimization : DataOptimization
deriving DecidableEq, Repr

/-- `FeedbucketApi.getProjectFeedback`, modelled as a pure function of the
fetched `ProjectResponse` (the single upstream HTTP call) and the options. -/
def getProjectFeedback (response : ProjectResponse) (options : ListOptions) :
    FeedbackListResult :=
  let originalCount := response.project.feedback.length
  let filteredFeedback := filterStep response.project.feedback options.filter
  let filteredCount := filteredFeedback.length
  let paginatedFeedback := paginateStep filteredFeedback options.offset options.limit
  let returnedCount := paginatedFeedback.length
  let processedFeedback :=
    if options.summary != some false then
      ProcessedFeedback.summaries (summarizeFeedback paginatedFeedback)
    else
      ProcessedFeedback.full (optimizeFeedbackForAI paginatedFeedback)
  { project := response.project
    feedback := processedFeedback
    total_count := filteredCount
    data_optimization :=
      { original_count := originalCount
        filtered_count := filteredCount
        returned_count := returnedCount
        truncated_session_data := true
        summarized := options.summary != some false } }

/-! ### Lookup by id (`api.ts`, `getFeedbackById`) -/

/-- The cast `allFeedback.feedback as readonly Feedback[]` in `getFeedbackById`:
yields the full records (the summary branch is unreachable there because the
call passes `summary: false`). -/
def fullFeedbackItems : ProcessedFeedback → List Feedback
  | .full items => items
  | .summaries _ => []

/-- `FeedbucketApi.getFeedbackById`: fetch everything with `summary: false`,
then linearly search by id; a miss synthesizes a 404-shaped failure. -/
def getFeedbackById (response : ProjectResponse) (feedbackId : Nat) :
    Except FeedbucketApiError Feedback :=
  let allFeedback := getProjectFeedback response ⟨none, none, some false, none, none⟩
  match (fullFeedbackItems allFeedback.feedback).find? (fun item => item.id == feedbackId) with
  | none => Except.error ⟨s!"Feedback with ID {feedbackId} not found", 404, none⟩
  | some feedback => Except.ok feedback

/-! ### Transport (`api.ts`, `makeRequest`) -/

/-- Outcome of the `fetch` call as seen by `makeRequest`: either the promise
rejected (network-level failure) or a response arrived, carrying the HTTP
status, status text, the result of reading the body as text (`none` models a
read failure) and the result of parsing the body as JSON. -/
inductive FetchOutcome (T : Type) where
  | networkFailure (message : String)
  | response (status : Nat) (statusText : String) (bodyText : Option String)
      (jsonResult : Except String T)

/-- `response.ok`: status in the inclusive range 200–299. -/
def responseOk (status : Nat) : Bool :=
  decide (200 ≤ status) && decide (status ≤ 299)

/-- The error message template of the non-2xx branch of `makeRequest`. -/
def apiErrorMessage (status : Nat) (statusText errorText : String) : String :=
  "API request failed: " ++ toString status ++ " " ++ statusText ++
    ". Response: " ++ errorText

/-- `FeedbucketApi.makeRequest`, modelled over a `FetchOutcome`. A non-2xx
response raises a `FeedbucketApiError` carrying the status and raw body text
(with `"Unknown error"` substituted when the body read failed); a rejected
fetch or a JSON parse failure raises a status-0 error. -/
def makeRequest {T : Type} : FetchOutcome T → Except FeedbucketApiError T
  | .networkFailure msg =>
    Except.error ⟨"Network request failed: " ++ msg, 0, none⟩
  | .response status statusText bodyText jsonResult =>
    if responseOk status then
      match jsonResult with
      | .ok data => Except.ok data
      | .error msg => Except.error ⟨"Network request failed: " ++ msg, 0, none⟩
    else
      let errorText := bodyText.getD "Unknown error"
      Except.error ⟨apiErrorMessage status statusText errorText, status, some errorText⟩

/-! ### The `feedback_list` tool handler (`index.ts`) -/

/-- The arguments accepted by the `feedback_list` tool. -/
structure FeedbackListArgs where
  resolved : Option Bool
  limit : Option Nat
  offset : Option Nat
  summary : Option Bool
  page_filter : Option String
  reporter_filter : Option String
  feedback_type : Option FeedbackType
  created_after : Option String
deriving DecidableEq, Repr

/-- The filter object assembled by the handler: `resolved` is copied on an
explicit `!== undefined` check, the string arguments only when truthy, and the
enum argument when present. -/
def buildListFilter (args : FeedbackListArgs) : FeedbackFilter :=
  { resolved := args.resolved
    page := if jsStrTruthy args.page_filter then args.page_filter else none
    reporter := if jsStrTruthy args.reporter_filter then args.reporter_filter else none
    type := args.feedback_type
    created_after := if jsStrTruthy args.created_after then args.created_after else none
    created_before := none }

/-- `Object.keys(filter).length > 0` on the assembled filter. -/
def filterHasKeys (f : FeedbackFilter) : Bool :=
  f.resolved.isSome || f.page.isSome || f.reporter.isSome || f.type.isSome ||
    f.created_after.isSome || f.created_before.isSome

/-- `(args?.limit as number) || 10`. -/
def requestedLimitOf (args : FeedbackListArgs) : Nat :=
  match args.limit with
  | none => 10
  | some l => if l == 0 then 10 else l

/-- The `options` object the handler passes to `getProjectFeedback`: the limit
clamped to 50, offset defaulted to 0, summary coerced to a definite boolean,
and the filter attached only when it has at least one key. -/
def feedbackListOptions (args : FeedbackListArgs) : ListOptions :=
  let filter := buildListFilter args
  { limit := some (min (requestedLimitOf args) 50)
    offset := some (args.offset.getD 0)
    summary := some (args.summary != some false)
    actioned := none
    filter := if filterHasKeys filter then some filter else none }

/-- The `pagination` block of the `feedback_list` response. -/
structure PaginationBlock where
  showing : Nat
  total_available : Nat
  offset : Option Nat
  limit : Option Nat
  has_more : Bool
deriving DecidableEq, Repr

/-- The `pagination` block assembled by the `feedback_list` handler:
`has_more: (options.offset || 0) + result.feedback.length < result.total_count`. -/
def feedbackListPagination (response : ProjectResponse) (args : FeedbackListArgs) :
    PaginationBlock :=
  let options := feedbackListOptions args
  let result := getProjectFeedback response options
  { showing := processedLength result.feedback
    total_available := result.total_count
    offset := options.offset
    limit := options.limit
    has_more := decide (options.offset.getD 0 + processedLength result.feedback < result.total_count) }

/-! ### Concrete sample data for witnesses and counterexamples -/

/-- A concrete reporter. -/
def sampleReporter : Reporter :=
  { id := 7
    name := "Jane Doe"
    email := "jane@example.com"
    token := none
    notifications := true
    created_at := "2024-12-01T00:00:00Z"
    updated_at := "2024-12-01T00:00:00Z" }

/-- A concrete session-data value. -/
def sampleSession : SessionData :=
  { page := "https://example.com/home"
    device := "desktop"
    system := "macOS"
    browser := "Chrome"
    selector :=
      { path := "body > div"
        pathWithClass := "body > div.main"
        offset := { x := 10, y := 20 }
        scrollableSelector := none }
    userAgent := "Mozilla/5.0"
    screenWidth := 2560
    screenHeight := 1440
    viewportWidth := 1280
    viewportHeight := 720
    widgetVersion := "1.0.0"
    devDataOverview := { console := { log := 1, info := 2, warn := 0, error := 0 } }
    devicePixelRatio := 2 }

/-- A concrete unresolved feedback record. -/
def sampleRecord : Feedback :=
  { id := 326247
    type := FeedbackType.screenshot
    title := "Bug report"
    text := some "Example feedback text"
    reporter := sampleReporter
    resource := none
    tags := []
    attachments := []
    resolved_at := none
    session_data := sampleSession
    created_at := "2025-01-01T00:00:00Z"
    comments := [] }

/-- A concrete resolved feedback record. -/
def sampleResolvedRecord : Feedback :=
  { sampleRecord with
    id := 326248
    resolved_at := some "2025-02-01T00:00:00Z"
    created_at := "2025-01-15T00:00:00Z" }

/-- A concrete project holding the two sample records. -/
def sampleProject : Project :=
  { id := 1
    name := "Sample Project"
    url := "https://example.com"
    translations := []
    feedback := [sampleRecord, sampleResolvedRecord] }

/-- A concrete project response. -/
def sampleResponse : ProjectResponse :=
  { message := "ok", project := sampleProject }

/-! ### Shared helper lemmas -/

/-- The `resolved` guard of the early-return chain equals the independent
`resolved` predicate. -/
theorem resolvedGuard_eq (f : FeedbackFilter) (item : Feedback) :
    (!(match f.resolved with
       | none => false
       | some r => r != item.resolved_at.isSome)) = passResolved f item := by
  cases h : f.resolved with
  | none => simp [passResolved, h]
  | some r => cases r <;> cases h2 : item.resolved_at.isSome <;> simp [passResolved, h, h2]

/-- The `page` guard of the early-return chain equals the independent `page`
predicate. -/
theorem pageGuard_eq (f : FeedbackFilter) (item : Feedback) :
    (!(jsStrTruthy f.page && !(strIncludes item.session_data.page (f.page.getD "")))) =
      passPage f item := by
  cases h : f.page with
  | none => simp [passPage, jsStrTruthy, h]
  | some p => by_cases hp : p = "" <;> simp [passPage, jsStrTruthy, h, hp]

/-- The `reporter` guard of the early-return chain equals the independent
`reporter` predicate. -/
theorem reporterGuard_eq (f : FeedbackFilter) (item : Feedback) :
    (!(jsStrTruthy f.reporter &&
       !(strIncludes (strToLower item.reporter.name) (strToLower (f.reporter.getD ""))))) =
      passReporter f item := by
  cases h : f.reporter with
  | none => simp [passReporter, jsStrTruthy, h]
  | some rep => by_cases hr : rep = "" <;> simp [passReporter, jsStrTruthy, h, hr]

/-- The `type` guard of the early-return chain equals the independent `type`
predicate. -/
theorem typeGuard_eq (f : FeedbackFilter) (item : Feedback) :
    (!(match f.type with
       | none => false
       | some t => t != item.type)) = passType f item := by
  cases h : f.type with
  | none => simp [passType, h]
  | some t => cases t <;> cases h2 : item.type <;> simp only [passType, h, h2] <;> decide

/-- The `created_after` guard of the early-return chain equals the independent
`created_after` predicate. -/
theorem afterGuard_eq (f : FeedbackFilter) (item : Feedback) :
    (!(jsStrTruthy f.created_after && strLt item.created_at (f.created_after.getD ""))) =
      passCreatedAfter f item := by
  cases h : f.created_after with
  | none => simp [passCreatedAfter, jsStrTruthy, h]
  | some a => by_cases ha : a = "" <;> simp [passCreatedAfter, jsStrTruthy, strLe, strLt, h, ha]

/-- The `created_before` guard of the early-return chain equals the independent
`created_before` predicate. -/
theorem beforeGuard_eq (f : FeedbackFilter) (item : Feedback) :
    (!(jsStrTruthy f.created_before && strLt (f.created_before.getD "") item.created_at)) =
      passCreatedBefore f item := by
  cases h : f.created_before with
  | none => simp [passCreatedBefore, jsStrTruthy, h]
  | some b => by_cases hb : b = "" <;> simp [passCreatedBefore, jsStrTruthy, strLe, strLt, h, hb]

/-- The early-return filter predicate of the source coincides with the
conjunction of the six independent criteria. -/
theorem feedbackPasses_eq_passAll (f : FeedbackFilter) (item : Feedback) :
    feedbackPasses f item = passAll f item := by
  unfold feedbackPasses passAll
  rw [resolvedGuard_eq, pageGuard_eq, reporterGuard_eq, typeGuard_eq, afterGuard_eq,
    beforeGuard_eq]

/-- The rebuilt `session_data` copies every field, so the optimized-full
projection is the identity on the typed record. -/
theorem optimizeOne_eq_self (item : Feedback) : optimizeOne item = item := rfl

/-- `optimizeFeedbackForAI` is the identity on the typed record list. -/
theorem optimizeFeedbackForAI_eq_self (l : List Feedback) : optimizeFeedbackForAI l = l := by
  have h : optimizeOne = id := funext fun _ => rfl
  simp [optimizeFeedbackForAI, h]

/-- Both projections preserve the number of records, hence the length of the
returned `feedback` payload is the length of the paginated subset. -/
theorem processedLength_getProjectFeedback (response : ProjectResponse) (options : ListOptions) :
    processedLength (getProjectFeedback response options).feedback =
      (paginateStep (filterStep response.project.feedback options.filter)
        options.offset options.limit).length := by
  unfold getProjectFeedback
  by_cases h : options.summary != some false <;>
    simp [h, processedLength, summarizeFeedback, optimizeFeedbackForAI]

/-- The `total_count` field is the post-filter, pre-pagination length. -/
theorem total_count_eq (response : ProjectResponse) (options : ListOptions) :
    (getProjectFeedback response options).total_count =
      (filterStep response.project.feedback options.filter).length := rfl

/-- A string is a substring of anything it suffixes. -/
theorem strIncludes_append_right (a b : String) : strIncludes (a ++ b) b = true := by
  unfold strIncludes
  rw [decide_eq_true_eq, String.data_append]
  exact (List.suffix_append _ _).isInfix

/-- A record whose `text` is the empty string. -/
def emptyTextRecord : Feedback :=
  { sampleRecord with text := some "" }

/-- A 250-character text. -/
def longText : String :=
  String.mk (List.replicate 250 'x')

/-- A record whose `text` has 250 characters. -/
def longTextRecord : Feedback :=
  { sampleRecord with text := some longText }

/-- A filter whose only present criterion is an empty-string `created_before`. -/
def emptyBeforeFilter : FeedbackFilter :=
  ⟨none, none, none, none, none, some ""⟩

/-- A filter whose only present criterion is a `created_before` equal to
`sampleRecord.created_at`. -/
def boundaryFilter : FeedbackFilter :=
  ⟨none, none, none, none, none, some "2025-01-01T00:00:00Z"⟩

/-! ### Claims -/

/-- Claim C1, counterexample: with the present criterion
`created_before = ""`, the specified filter (every syntactically present
criterion evaluated as an independent predicate) rejects `sampleRecord`
(no timestamp is `≤ ""`), while the implemented `filterFeedback` retains it,
because the source guards the criterion with JavaScript truthiness and an
empty string is falsy. So `filterFeedback` does not return exactly the
records satisfying every present criterion. -/
theorem claim_C1_counterexample :
    specFilterPred emptyBeforeFilter sampleRecord = false
    ∧ filterFeedback [sampleRecord] emptyBeforeFilter = [sampleRecord] :=
  ⟨by decide, by decide⟩

/-- Claim C1 (amended): for every record list `R` and filter `C`,
`filterFeedback R C` returns exactly the records satisfying every effective
criterion of `C` — where a string-valued criterion equal to the empty string
counts as absent — evaluated as independent predicates combined by logical
AND, preserving the order of `R` (the result is a sublist of `R`); with no
criterion present it returns `R` unchanged. -/
theorem claim_C1 (R : List Feedback) (C : FeedbackFilter) :
    filterFeedback R C = R.filter (passAll C)
    ∧ (filterFeedback R C).Sublist R
    ∧ (C = emptyFilter → filterFeedback R C = R) := by
  refine ⟨?_, ?_, ?_⟩
  · exact List.filter_congr fun i _ => feedbackPasses_eq_passAll C i
  · exact List.filter_sublist R
  · intro hC
    subst hC
    have h : feedbackPasses emptyFilter = fun _ => true := funext fun _ => rfl
    simp [filterFeedback, h]

/-- Claim C1, witness: with no criterion present the filter returns the
collection unchanged. -/
theorem claim_C1_witness :
    filterFeedback [sampleRecord, sampleResolvedRecord] emptyFilter
      = [sampleRecord, sampleResolvedRecord] :=
  (claim_C1 [sampleRecord, sampleResolvedRecord] emptyFilter).2.2 rfl

/-- Claim C2: for every record list, offset `o ≥ 0` and limit `l > 0`, the
paginated result has length `min l (|R| - o)` when `o < |R|` and length `0`
otherwise (an offset at or beyond the end yields an empty result). -/
theorem claim_C2 (R : List Feedback) (o l : Nat) (hl : 0 < l) :
    (paginateStep R (some o) (some l)).length =
      if o < R.length then min l (R.length - o) else 0 := by
  have hl0 : (l == 0) = false := beq_eq_false_iff_ne.mpr (by omega)
  simp [paginateStep, jsNumTruthy, jsSlice, hl0]
  by_cases ho : o < R.length <;> simp [ho] <;> omega

/-- Claim C2, witness: slicing three records at offset 1 with limit 5 returns
the 2 remaining records. -/
theorem claim_C2_witness :
    (paginateStep [sampleRecord, sampleResolvedRecord, sampleRecord]
      (some 1) (some 5)).length = 2 := by
  have h := claim_C2 [sampleRecord, sampleResolvedRecord, sampleRecord] 1 5 (by decide)
  simpa using h

/-- Claim C3: `filtered_count` equals the length of the filtered (but not yet
paginated) collection, and is therefore independent of the `offset` and
`limit` supplied — filtering is applied strictly before pagination. -/
theorem claim_C3 (response : ProjectResponse) (options : ListOptions) :
    (getProjectFeedback response options).data_optimization.filtered_count
      = (filterStep response.project.feedback options.filter).length
    ∧ ∀ (o l : Option Nat),
        (getProjectFeedback response
            { options with offset := o, limit := l }).data_optimization.filtered_count
          = (getProjectFeedback response options).data_optimization.filtered_count :=
  ⟨rfl, fun _ _ => rfl⟩

/-- Claim C4, counterexample: a record whose `text` is the empty string (a
non-null text of length at most 200) is mapped to a `null` summary text, not
to the original text, because the source tests `item.text` for JavaScript
truthiness and the empty string is falsy. -/
theorem claim_C4_counterexample :
    emptyTextRecord.text = some ""
    ∧ (summarizeOne emptyTextRecord).text = none
    ∧ (summarizeOne emptyTextRecord).text ≠ emptyTextRecord.text :=
  ⟨rfl, by decide, by decide⟩

/-- Claim C4 (amended): the summary projection maps `text` as follows: `null`
and the empty string map to `null`; a non-empty text of length at most 200 is
passed through unchanged; a text longer than 200 characters becomes its first
200 characters followed by the `"..."` truncation marker. -/
theorem claim_C4 (item : Feedback) :
    (item.text = none → (summarizeOne item).text = none)
    ∧ (item.text = some "" → (summarizeOne item).text = none)
    ∧ (∀ s, item.text = some s → s ≠ "" → s.length ≤ 200 →
        (summarizeOne item).text = some s)
    ∧ (∀ s, item.text = some s → 200 < s.length →
        (summarizeOne item).text = some (s.take 200 ++ "...")) := by
  refine ⟨?_, ?_, ?_, ?_⟩
  · intro h
    simp [summarizeOne, summarizeText, h]
  · intro h
    simp [summarizeOne, summarizeText, h]
  · intro s h hs hlen
    have h1 : (s == "") = false := beq_eq_false_iff_ne.mpr hs
    have h2 : decide (s.length > 200) = false := decide_eq_false (by omega)
    simp [summarizeOne, summarizeText, h, h1, h2]
  · intro s h hlen
    have hs : s ≠ "" := by
      intro e
      rw [e] at hlen
      exact absurd hlen (by decide)
    have h1 : (s == "") = false := beq_eq_false_iff_ne.mpr hs
    have h2 : decide (s.length > 200) = true := decide_eq_true (by omega)
    simp [summarizeOne, summarizeText, h, h1, h2]

set_option maxRecDepth 4000 in
/-- Claim C4, witness: a 250-character text is truncated to its first 200
characters plus the marker. -/
theorem claim_C4_witness :
    (summarizeOne longTextRecord).text = some (longText.take 200 ++ "...") :=
  (claim_C4 longTextRecord).2.2.2 longText rfl (by decide)

/-- Claim C5, counterexample: a record whose `created_at` equals the present
`created_before` criterion is retained by the filter, not excluded — the
source tests `item.created_at > filter.created_before`, which is false on
equality, so the bound is inclusive. -/
theorem claim_C5_counterexample :
    sampleRecord.created_at = "2025-01-01T00:00:00Z"
    ∧ boundaryFilter.created_before = some "2025-01-01T00:00:00Z"
    ∧ filterFeedback [sampleRecord] boundaryFilter = [sampleRecord]
    ∧ filterFeedback [sampleRecord] boundaryFilter ≠ [] :=
  ⟨rfl, rfl, by decide, by decide⟩

/-- Claim C5 (amended): a present non-empty `created_before` criterion is an
inclusive upper bound — the record passes the filter iff it passes the filter
without that criterion and `created_at ≤ created_before` holds (so a record
with `created_at` equal to the bound is retained) — while a present non-empty
`created_after` criterion is an inclusive lower bound. -/
theorem claim_C5 (f : FeedbackFilter) (item : Feedback) (b a : String) :
    (f.created_before = some b → b ≠ "" →
      feedbackPasses f item =
        (feedbackPasses { f with created_before := none } item
          && strLe item.created_at b))
    ∧ (f.created_after = some a → a ≠ "" →
      feedbackPasses f item =
        (feedbackPasses { f with created_after := none } item
          && strLe a item.created_at)) := by
  constructor
  · intro hb hbne
    simp only [feedbackPasses_eq_passAll, passAll]
    simp [passCreatedBefore, passResolved, passPage, passReporter, passType,
      passCreatedAfter, hb, beq_eq_false_iff_ne.mpr hbne, Bool.and_assoc, Bool.and_true]
  · intro ha hane
    simp only [feedbackPasses_eq_passAll, passAll]
    simp [passCreatedBefore, passResolved, passPage, passReporter, passType,
      passCreatedAfter, ha, beq_eq_false_iff_ne.mpr hane, Bool.and_assoc, Bool.and_true,
      Bool.and_comm, Bool.and_left_comm]

/-- Claim C5, witness: at the boundary timestamp the record still passes, and
the decomposition of the amended claim evaluates correctly. -/
theorem claim_C5_witness :
    feedbackPasses boundaryFilter sampleRecord =
      (feedbackPasses { boundaryFilter with created_before := none } sampleRecord
        && strLe sampleRecord.created_at "2025-01-01T00:00:00Z") :=
  (claim_C5 boundaryFilter sampleRecord "2025-01-01T00:00:00Z" "").1 rfl (by decide)

/-- Claim C6: the `has_more` flag computed by the `feedback_list` handler is
true iff `offset + returned_count < filtered_count`, where `returned_count`
is the length of the returned page and `filtered_count` the post-filter,
pre-pagination count. -/
theorem claim_C6 (response : ProjectResponse) (args : FeedbackListArgs) :
    (feedbackListPagination response args).has_more = true ↔
      (feedbackListOptions args).offset.getD 0
        + (paginateStep (filterStep response.project.feedback (feedbackListOptions args).filter)
            (feedbackListOptions args).offset (feedbackListOptions args).limit).length
        < (filterStep response.project.feedback (feedbackListOptions args).filter).length := by
  unfold feedbackListPagination
  simp only [processedLength_getProjectFeedback, total_count_eq, decide_eq_true_eq]

/-- Claim C7: the optimized-full projection leaves every field of the record
other than `session_data` unchanged, and rebuilds `session_data` with exactly
the allow-listed fields, each taken unchanged from the original. -/
theorem claim_C7 (l : List Feedback) (item : Feedback) :
    optimizeFeedbackForAI l = l.map optimizeOne
    ∧ (optimizeOne item).id = item.id
    ∧ (optimizeOne item).type = item.type
    ∧ (optimizeOne item).reporter = item.reporter
    ∧ (optimizeOne item).resource = item.resource
    ∧ (optimizeOne item).title = item.title
    ∧ (optimizeOne item).text = item.text
    ∧ (optimizeOne item).tags = item.tags
    ∧ (optimizeOne item).attachments = item.attachments
    ∧ (optimizeOne item).resolved_at = item.resolved_at
    ∧ (optimizeOne item).created_at = item.created_at
    ∧ (optimizeOne item).comments = item.comments
    ∧ (optimizeOne item).session_data.page = item.session_data.page
    ∧ (optimizeOne item).session_data.device = item.session_data.device
    ∧ (optimizeOne item).session_data.system = item.session_data.system
    ∧ (optimizeOne item).session_data.browser = item.session_data.browser
    ∧ (optimizeOne item).session_data.selector.path = item.session_data.selector.path
    ∧ (optimizeOne item).session_data.selector.pathWithClass
        = item.session_data.selector.pathWithClass
    ∧ (optimizeOne item).session_data.selector.offset = item.session_data.selector.offset
    ∧ (optimizeOne item).session_data.selector.scrollableSelector
        = item.session_data.selector.scrollableSelector
    ∧ (optimizeOne item).session_data.userAgent = item.session_data.userAgent
    ∧ (optimizeOne item).session_data.screenWidth = item.session_data.screenWidth
    ∧ (optimizeOne item).session_data.screenHeight = item.session_data.screenHeight
    ∧ (optimizeOne item).session_data.viewportWidth = item.session_data.viewportWidth
    ∧ (optimizeOne item).session_data.viewportHeight = item.session_data.viewportHeight
    ∧ (optimizeOne item).session_data.widgetVersion = item.session_data.widgetVersion
    ∧ (optimizeOne item).session_data.devDataOverview = item.session_data.devDataOverview
    ∧ (optimizeOne item).session_data.devicePixelRatio = item.session_data.devicePixelRatio :=
  ⟨rfl, rfl, rfl, rfl, rfl, rfl, rfl, rfl, rfl, rfl, rfl, rfl, rfl, rfl, rfl, rfl, rfl,
    rfl, rfl, rfl, rfl, rfl, rfl, rfl, rfl, rfl, rfl, rfl⟩

/-- Claim C8: every non-2xx HTTP response makes `makeRequest` return a typed
failure carrying the HTTP status code and the raw response body text, with a
message embedding both. -/
theorem claim_C8 (T : Type) (status : Nat) (statusText : String)
    (bodyText : Option String) (jsonResult : Except String T)
    (h : responseOk status = false) :
    makeRequest (FetchOutcome.response status statusText bodyText jsonResult)
      = Except.error ⟨apiErrorMessage status statusText (bodyText.getD "Unknown error"),
          status, some (bodyText.getD "Unknown error")⟩
    ∧ strIncludes (apiErrorMessage status statusText (bodyText.getD "Unknown error"))
        (bodyText.getD "Unknown error") = true
    ∧ strIncludes (apiErrorMessage status statusText (bodyText.getD "Unknown error"))
        (toString status) = true := by
  refine ⟨?_, ?_, ?_⟩
  · simp [makeRequest, h]
  · exact strIncludes_append_right
      ("API request failed: " ++ toString status ++ " " ++ statusText ++ ". Response: ") _
  · unfold strIncludes apiErrorMessage
    rw [decide_eq_true_eq]
    refine ⟨("API request failed: " : String).data,
      (" " ++ statusText ++ ". Response: " ++ (bodyText.getD "Unknown error")).data, ?_⟩
    simp [List.append_assoc]

/-- Claim C8, witness: an HTTP 500 response with body `"server error"` yields
a failure with status 500 whose message contains `"server error"`. -/
theorem claim_C8_witness :
    makeRequest (FetchOutcome.response 500 "Internal Server Error" (some "server error")
        (Except.ok (0 : Nat)))
      = Except.error ⟨apiErrorMessage 500 "Internal Server Error" "server error", 500,
          some "server error"⟩
    ∧ strIncludes (apiErrorMessage 500 "Internal Server Error" "server error")
        "server error" = true := by
  have h := claim_C8 Nat 500 "Internal Server Error" (some "server error")
    (Except.ok 0) (by decide)
  exact ⟨h.1, h.2.1⟩

/-- Claim C9: `getFeedbackById` scans the full fetched collection; it returns
a 404-shaped typed failure when no record has the requested id, and the
matching full record when one does. -/
theorem claim_C9 (response : ProjectResponse) (feedbackId : Nat) :
    ((∀ r ∈ response.project.feedback, r.id ≠ feedbackId) →
      getFeedbackById response feedbackId
        = Except.error ⟨s!"Feedback with ID {feedbackId} not found", 404, none⟩)
    ∧ (∀ r, response.project.feedback.find? (fun item => item.id == feedbackId) = some r →
      getFeedbackById response feedbackId = Except.ok r) := by
  have hitems : fullFeedbackItems
      (getProjectFeedback response ⟨none, none, some false, none, none⟩).feedback
        = response.project.feedback := by
    simp [fullFeedbackItems, getProjectFeedback, filterStep, paginateStep, jsNumTruthy,
      optimizeFeedbackForAI_eq_self]
  constructor
  · intro hall
    have hfind : response.project.feedback.find? (fun item => item.id == feedbackId) = none := by
      rw [List.find?_eq_none]
      intro x hx
      simpa using hall x hx
    unfold getFeedbackById
    simp only [hitems, hfind]
  · intro r hr
    unfold getFeedbackById
    simp only [hitems, hr]

/-- Claim C9, witness: a missing id yields the 404 failure; a present id
returns the matching record. -/
theorem claim_C9_witness :
    getFeedbackById sampleResponse 99999
      = Except.error ⟨"Feedback with ID 99999 not found", 404, none⟩
    ∧ getFeedbackById sampleResponse 326247 = Except.ok sampleRecord := by
  constructor
  · exact (claim_C9 sampleResponse 99999).1 (by decide)
  · exact (claim_C9 sampleResponse 326247).2 sampleRecord (by decide)

/-- Claim C10: `total_count` always equals `filtered_count` (the post-filter,
pre-pagination size), and `data_optimization.truncated_session_data` is the
constant `true` regardless of summary mode. -/
theorem claim_C10 (response : ProjectResponse) (options : ListOptions) :
    (getProjectFeedback response options).total_count
      = (getProjectFeedback response options).data_optimization.filtered_count
    ∧ (getProjectFeedback response options).total_count
      = (filterStep response.project.feedback options.filter).length
    ∧ (getProjectFeedback response options).data_optimization.truncated_session_data = true :=
  ⟨rfl, rfl, rfl⟩

end Feedbucket
